import Mathlib

/-!
Verification of the IR evaluation pipeline (`ir_eval_app`).

The Python sources are shallowly embedded: JSON values become the inductive
`JVal`, Python floats become `ℚ`, dicts become association lists, and the
fallible operations (`float(...)`, `json.loads`, external calls) become
`Except`/`Option` values.  Machine constants of the app (`MODEL_NAME`, the
gate threshold 80, the score cap 92) are carried verbatim.
-/

set_option maxHeartbeats 1000000
set_option maxRecDepth 10000

namespace IREval

/-- A JSON value as produced by `json.loads` / consumed by `json.dumps`.
Numbers are idealised as rationals. -/
inductive JVal where
  | null
  | bool (b : Bool)
  | num (q : ℚ)
  | str (s : String)
  | arr (elems : List JVal)
  | obj (fields : List (String × JVal))
deriving Repr

/-- Python truthiness of a JSON value (`if x:`). -/
def truthy : JVal → Bool
  | .null => false
  | .bool b => b
  | .num q => decide (q ≠ 0)
  | .str s => decide (s ≠ "")
  | .arr xs => !xs.isEmpty
  | .obj kvs => !kvs.isEmpty

/-- First value bound to `key` in an association list (Python dict lookup;
dicts preserve insertion order and have unique keys). -/
def lookupField : List (String × JVal) → String → Option JVal
  | [], _ => none
  | (k, v) :: rest, key => if k = key then some v else lookupField rest key

/-- Python `d.get(key, default)` on a dict value; a non-dict yields the
default (mirrors `_get` in `report_writer.py`). -/
def objGet (v : JVal) (key : String) (dflt : JVal) : JVal :=
  match v with
  | .obj kvs => (lookupField kvs key).getD dflt
  | _ => dflt

/-- Whether a dict value carries `key` (Python `key in d`). -/
def hasKey (v : JVal) (key : String) : Bool :=
  match v with
  | .obj kvs => (lookupField kvs key).isSome
  | _ => false

/-- Python `d[key] = value`: replace in place if present, else append. -/
def setField : List (String × JVal) → String → JVal → List (String × JVal)
  | [], key, v => [(key, v)]
  | (k, v') :: rest, key, v =>
      if k = key then (key, v) :: rest else (k, v') :: setField rest key v

/-- `d[key] = value` lifted to `JVal` (only ever applied to dicts). -/
def objSet (o : JVal) (key : String) (v : JVal) : JVal :=
  match o with
  | .obj kvs => .obj (setField kvs key v)
  | other => other

/-- Python `a or b`. -/
def pyOr (a b : JVal) : JVal := if truthy a then a else b

/-- Digits to a natural number (base 10). -/
def digitsToNat (cs : List Char) : Nat :=
  cs.foldl (fun acc c => acc * 10 + (c.toNat - '0'.toNat)) 0

def isDigit (c : Char) : Bool := '0' ≤ c ∧ c ≤ '9'

/-- Python `float(s)` on the decimal strings the model may emit: optional
sign, digits, optional fractional part, optional exponent.  Anything else
is a `ValueError` (`none`). -/
def pyParseFloat (s : String) : Option ℚ :=
  let cs := s.data.dropWhile (fun c => c = ' ') |>.reverse.dropWhile (fun c => c = ' ') |>.reverse
  let (sign, cs) :=
    match cs with
    | '-' :: rest => ((-1 : ℚ), rest)
    | '+' :: rest => ((1 : ℚ), rest)
    | _ => ((1 : ℚ), cs)
  let intPart := cs.takeWhile isDigit
  let cs := cs.dropWhile isDigit
  let (fracPart, cs) :=
    match cs with
    | '.' :: rest => (rest.takeWhile isDigit, rest.dropWhile isDigit)
    | _ => ([], cs)
  if intPart.isEmpty ∧ fracPart.isEmpty then none
  else
    let mantissa : ℚ :=
      (digitsToNat intPart : ℚ) + (digitsToNat fracPart : ℚ) / ((10 : ℚ) ^ fracPart.length)
    match cs with
    | [] => some (sign * mantissa)
    | e :: rest =>
      if e = 'e' ∨ e = 'E' then
        let (esign, rest) :=
          match rest with
          | '-' :: r => ((-1 : ℤ), r)
          | '+' :: r => ((1 : ℤ), r)
          | _ => ((1 : ℤ), rest)
        if rest.isEmpty ∨ ¬ rest.all isDigit then none
        else some (sign * mantissa * (10 : ℚ) ^ (esign * (digitsToNat rest : ℤ)))
      else none

/-- Python `float(x)`: numbers pass through, booleans become 0/1, strings
are parsed, everything else raises (`TypeError`). -/
def pyFloat : JVal → Except Unit ℚ
  | .num q => .ok q
  | .bool b => .ok (if b then 1 else 0)
  | .str s =>
      match pyParseFloat s with
      | some q => .ok q
      | none => .error ()
  | _ => .error ()

/-- `float(d.get("k", 0) or 0)` — the idiom used throughout `app.py` to pull
a numeric score out of raw model output. -/
def pyFloatField (o : JVal) (key : String) : Except Unit ℚ :=
  pyFloat (pyOr (objGet o key (.num 0)) (.num 0))

/-- Python `round(q)` (banker's rounding, halves to even) as used by
`int(round(x))` in `compute_perspective_scores`. -/
def roundHalfEven (q : ℚ) : ℤ :=
  let f := ⌊q⌋
  let frac := q - f
  if frac < 1/2 then f
  else if 1/2 < frac then f + 1
  else if f % 2 = 0 then f else f + 1

/-- Python `round(q, 2)` as used by `compute_final_scores`. -/
def pyRound2 (q : ℚ) : ℚ := (roundHalfEven (q * 100) : ℚ) / 100

/-- The left curly brace character. -/
def cLB : Char := Char.ofNat 123

/-- The right curly brace character. -/
def cRB : Char := Char.ofNat 125

/-- The double-quote character. -/
def cQuote : Char := Char.ofNat 34

/-- The backslash character. -/
def cBackslash : Char := Char.ofNat 92

/-- The backtick character. -/
def cBacktick : Char := Char.ofNat 96

/-- Python `str.strip()` whitespace. -/
def isPySpace (c : Char) : Bool :=
  c = ' ' ∨ c = '\t' ∨ c = '\n' ∨ c = '\r' ∨ c = Char.ofNat 11 ∨ c = Char.ofNat 12

/-- Python `str.strip()` on a character list. -/
def stripL (cs : List Char) : List Char :=
  ((cs.dropWhile isPySpace).reverse.dropWhile isPySpace).reverse

/-- Python `str.strip()`. -/
def pyStrip (s : String) : String := ⟨stripL s.data⟩

def listStartsWith (pre cs : List Char) : Bool := pre.isPrefixOf cs

def listEndsWith (suf cs : List Char) : Bool := suf.reverse.isPrefixOf cs.reverse

/-- Characters matched by `[a-zA-Z0-9_-]` in the fence-stripping regex. -/
def isFenceTagChar (c : Char) : Bool :=
  isDigit c ∨ ('a' ≤ c ∧ c ≤ 'z') ∨ ('A' ≤ c ∧ c ≤ 'Z') ∨ c = '_' ∨ c = '-'

/-- `re.sub(r"^ fence [a-zA-Z0-9_-]*\n", "", s)`: drop an opening markdown
code fence (three backticks, an optional language tag, a newline); leave the
input unchanged when the pattern does not match. -/
def dropFenceHead (cs : List Char) : List Char :=
  match cs with
  | b1 :: b2 :: b3 :: rest =>
    if b1 = cBacktick ∧ b2 = cBacktick ∧ b3 = cBacktick then
      match rest.dropWhile isFenceTagChar with
      | '\n' :: tail => tail
      | _ => cs
    else cs
  | _ => cs

/-- `re.sub(r"\n fence $", "", s)`: drop a closing markdown code fence. -/
def dropFenceTail (cs : List Char) : List Char :=
  if listEndsWith ['\n', cBacktick, cBacktick, cBacktick] cs then
    cs.take (cs.length - 4)
  else cs

/-- Python `s.find(c)`: index of the first occurrence. -/
def findIdx : List Char → Char → Option Nat
  | [], _ => none
  | x :: rest, c => if x = c then some 0 else (findIdx rest c).map (· + 1)

/-- Python `s.rfind(c)`: index of the last occurrence. -/
def rfindIdx (cs : List Char) (c : Char) : Option Nat :=
  match findIdx cs.reverse c with
  | none => none
  | some i => some (cs.length - 1 - i)

/-- `_extract_json_object` from `evaluator.py`: recover a JSON object from
noisy model output (strip whitespace, strip a markdown code fence, fast-path
a braced payload, else cut from the first `\x7b` to the last `\x7d`). -/
def extractJsonObject (text : String) : String :=
  if text = "" then ⟨[cLB, cRB]⟩
  else
    let s0 := stripL text.data
    let s1 :=
      if listStartsWith [cBacktick, cBacktick, cBacktick] s0 ∧
          listEndsWith [cBacktick, cBacktick, cBacktick] s0 then
        stripL (dropFenceTail (dropFenceHead s0))
      else s0
    if listStartsWith [cLB] s1 ∧ listEndsWith [cRB] s1 then ⟨s1⟩
    else
      match findIdx s1 cLB, rfindIdx s1 cRB with
      | some start, some stop =>
          if start < stop then ⟨stripL ((s1.drop start).take (stop + 1 - start))⟩ else ⟨s1⟩
      | _, _ => ⟨s1⟩

/-- JSON whitespace accepted by `json.loads`. -/
def isJsonWs (c : Char) : Bool := c = ' ' ∨ c = '\t' ∨ c = '\n' ∨ c = '\r'

/-- Value of a hexadecimal digit. -/
def hexVal (c : Char) : Option Nat :=
  if isDigit c then some (c.toNat - 48)
  else if 'a' ≤ c ∧ c ≤ 'f' then some (c.toNat - 87)
  else if 'A' ≤ c ∧ c ≤ 'F' then some (c.toNat - 55)
  else none

def hex4 (a b c d : Char) : Option Nat := do
  let va ← hexVal a
  let vb ← hexVal b
  let vc ← hexVal c
  let vd ← hexVal d
  pure (((va * 16 + vb) * 16 + vc) * 16 + vd)

/-- A Unicode scalar value as a `Char`, when in range. -/
def charOfCode (n : Nat) : Option Char :=
  if n < 55296 ∨ (57344 ≤ n ∧ n < 1114112) then some (Char.ofNat n) else none

/-- Body of a JSON string after the opening quote: plain characters, the
standard escapes, and `\uXXXX` (with surrogate pairs combined). -/
def parseStringBody : List Char → List Char → Option (String × List Char)
  | [], _ => none
  | c :: rest, acc =>
    if c = cQuote then some (⟨acc.reverse⟩, rest)
    else if c = cBackslash then
      match rest with
      | [] => none
      | e :: rest2 =>
        if e = cQuote then parseStringBody rest2 (cQuote :: acc)
        else if e = cBackslash then parseStringBody rest2 (cBackslash :: acc)
        else if e = '/' then parseStringBody rest2 ('/' :: acc)
        else if e = 'b' then parseStringBody rest2 (Char.ofNat 8 :: acc)
        else if e = 'f' then parseStringBody rest2 (Char.ofNat 12 :: acc)
        else if e = 'n' then parseStringBody rest2 ('\n' :: acc)
        else if e = 'r' then parseStringBody rest2 ('\r' :: acc)
        else if e = 't' then parseStringBody rest2 ('\t' :: acc)
        else if e = 'u' then
          match rest2 with
          | h1 :: h2 :: h3 :: h4 :: rest3 =>
            match hex4 h1 h2 h3 h4 with
            | none => none
            | some n =>
              if 55296 ≤ n ∧ n < 56320 then
                match rest3 with
                | b2 :: u2 :: g1 :: g2 :: g3 :: g4 :: rest4 =>
                  if b2 = cBackslash ∧ u2 = 'u' then
                    match hex4 g1 g2 g3 g4 with
                    | some m =>
                      if 56320 ≤ m ∧ m < 57344 then
                        match charOfCode (65536 + (n - 55296) * 1024 + (m - 56320)) with
                        | some ch => parseStringBody rest4 (ch :: acc)
                        | none => none
                      else none
                    | none => none
                  else none
                | _ => none
              else
                match charOfCode n with
                | some ch => parseStringBody rest3 (ch :: acc)
                | none => none
          | _ => none
        else none
    else if c.toNat < 32 then none
    else parseStringBody rest (c :: acc)

/-- A JSON number per `json.loads`: optional minus, an integer part with no
leading zeros, optional fraction, optional exponent. -/
def parseNumber (cs : List Char) : Option (ℚ × List Char) :=
  let signedPart := match cs with
    | '-' :: r => ((-1 : ℚ), r)
    | _ => ((1 : ℚ), cs)
  let sign := signedPart.1
  let cs1 := signedPart.2
  let intDigits := cs1.takeWhile isDigit
  let r1 := cs1.dropWhile isDigit
  if intDigits.isEmpty then none
  else if 1 < intDigits.length ∧ intDigits.headD 'x' = '0' then none
  else
    let fracPart := match r1 with
      | '.' :: r => (r.takeWhile isDigit, r.dropWhile isDigit, !(r.takeWhile isDigit).isEmpty)
      | _ => (([] : List Char), r1, true)
    let fracDigits := fracPart.1
    let r2 := fracPart.2.1
    if !fracPart.2.2 then none
    else
      let expPart := match r2 with
        | e :: r =>
          if e = 'e' ∨ e = 'E' then
            let es := match r with
              | '-' :: rr => ((-1 : ℤ), rr)
              | '+' :: rr => ((1 : ℤ), rr)
              | _ => ((1 : ℤ), r)
            let eds := es.2.takeWhile isDigit
            (es.1 * (digitsToNat eds : ℤ), es.2.dropWhile isDigit, !eds.isEmpty)
          else ((0 : ℤ), r2, true)
        | [] => ((0 : ℤ), r2, true)
      if !expPart.2.2 then none
      else
        let mant : ℚ := (digitsToNat (intDigits ++ fracDigits) : ℚ) / (10 : ℚ) ^ fracDigits.length
        some (sign * mant * (10 : ℚ) ^ expPart.1, expPart.2.1)

mutual

/-- A JSON value, recursive descent with explicit fuel.  Objects are built
with `setField` so that duplicate keys behave as in a Python dict (position
of the first occurrence, value of the last). -/
def parseVal : Nat → List Char → Option (JVal × List Char)
  | 0, _ => none
  | Nat.succ fuel, cs0 =>
    let cs := cs0.dropWhile isJsonWs
    match cs with
    | [] => none
    | c :: rest =>
      if c = cLB then
        let r := rest.dropWhile isJsonWs
        match r with
        | c2 :: r2 =>
          if c2 = cRB then some (.obj [], r2)
          else (parseObjRest fuel r).map (fun p => (.obj (p.1.foldl (fun acc kv => setField acc kv.1 kv.2) []), p.2))
        | [] => none
      else if c = '[' then
        let r := rest.dropWhile isJsonWs
        match r with
        | ']' :: r2 => some (.arr [], r2)
        | _ => (parseArrRest fuel r).map (fun p => (.arr p.1, p.2))
      else if c = cQuote then
        (parseStringBody rest []).map (fun p => (.str p.1, p.2))
      else
        match cs with
        | 'n' :: 'u' :: 'l' :: 'l' :: r => some (.null, r)
        | 't' :: 'r' :: 'u' :: 'e' :: r => some (.bool true, r)
        | 'f' :: 'a' :: 'l' :: 's' :: 'e' :: r => some (.bool false, r)
        | _ => (parseNumber cs).map (fun p => (.num p.1, p.2))

/-- The comma-separated elements of a JSON array, up to `]`. -/
def parseArrRest : Nat → List Char → Option (List JVal × List Char)
  | 0, _ => none
  | Nat.succ fuel, cs =>
    (parseVal fuel cs).bind fun p =>
      match (p.2.dropWhile isJsonWs) with
      | ',' :: r2 => (parseArrRest fuel r2).map (fun q => (p.1 :: q.1, q.2))
      | ']' :: r2 => some ([p.1], r2)
      | _ => none

/-- The comma-separated `"key": value` members of a JSON object, up to the
closing brace. -/
def parseObjRest : Nat → List Char → Option (List (String × JVal) × List Char)
  | 0, _ => none
  | Nat.succ fuel, cs =>
    match cs.dropWhile isJsonWs with
    | c :: rest =>
      if c = cQuote then
        (parseStringBody rest []).bind fun pk =>
          match pk.2.dropWhile isJsonWs with
          | ':' :: r2 =>
            (parseVal fuel r2).bind fun pv =>
              match pv.2.dropWhile isJsonWs with
              | c2 :: r4 =>
                if c2 = ',' then
                  (parseObjRest fuel r4).map (fun q => ((pk.1, pv.1) :: q.1, q.2))
                else if c2 = cRB then some ([(pk.1, pv.1)], r4)
                else none
              | [] => none
          | _ => none
      else none
    | [] => none

end

/-- `json.loads`: parse a complete JSON document (any trailing content other
than whitespace is an error). -/
def pyJsonLoads (s : String) : Option JVal :=
  match parseVal (2 * s.length + 2) s.data with
  | some (v, rest) => if (rest.dropWhile isJsonWs).isEmpty then some v else none
  | none => none

/-- `json_load` from `evaluator.py`: extract a candidate object from the raw
payload, parse it, and reject non-object JSON. -/
def jsonLoad (text : String) : Except String JVal :=
  match pyJsonLoads (extractJsonObject text) with
  | none => .error "Model did not return valid JSON"
  | some (.obj kvs) => .ok (.obj kvs)
  | some _ => .error "Model returned non-object JSON"

/-- The three perspective scores (`Dict[str, int]` with fixed keys
critical/neutral/positive). -/
structure PScores where
  critical : ℤ
  neutral : ℤ
  positive : ℤ
deriving Repr, DecidableEq

/-- The dict returned by `compute_final_scores` (fixed keys
conservative/neutral/optimistic). -/
structure FScores where
  conservative : ℚ
  neutral : ℚ
  optimistic : ℚ
deriving Repr, DecidableEq

/-- The recommendation labels, one per perspective. -/
structure Recs where
  critical : String
  neutral : String
  positive : String
deriving Repr, DecidableEq

/-- Lowercase hexadecimal digit. -/
def hexDigit (n : Nat) : Char := if n < 10 then Char.ofNat (48 + n) else Char.ofNat (87 + n)

def hexDigits4 (n : Nat) : List Char :=
  [hexDigit (n / 4096 % 16), hexDigit (n / 256 % 16), hexDigit (n / 16 % 16), hexDigit (n % 16)]

/-- JSON string escaping with `ensure_ascii=True`: the standard short escapes,
`\uXXXX` for other control and all non-ASCII characters (surrogate pairs for
astral characters), as `json.dumps` emits. -/
def escChar (c : Char) : List Char :=
  if c = cQuote then [cBackslash, cQuote]
  else if c = cBackslash then [cBackslash, cBackslash]
  else if c = '\n' then [cBackslash, 'n']
  else if c = '\r' then [cBackslash, 'r']
  else if c = '\t' then [cBackslash, 't']
  else if c = Char.ofNat 8 then [cBackslash, 'b']
  else if c = Char.ofNat 12 then [cBackslash, 'f']
  else if c.toNat < 32 then cBackslash :: 'u' :: hexDigits4 c.toNat
  else if c.toNat < 127 then [c]
  else if c.toNat < 65536 then cBackslash :: 'u' :: hexDigits4 c.toNat
  else
    (cBackslash :: 'u' :: hexDigits4 (55296 + (c.toNat - 65536) / 1024)) ++
      (cBackslash :: 'u' :: hexDigits4 (56320 + (c.toNat - 65536) % 1024))

def escapeJsonString (s : String) : String :=
  ⟨cQuote :: s.data.foldr (fun c acc => escChar c ++ acc) [cQuote]⟩

/-- Exact decimal expansion of `q` with `k` fractional digits (requires
`q.den ∣ 10 ^ k`). -/
def decimalRepr (q : ℚ) (k : Nat) : String :=
  let scaled : ℤ := q.num * ((10 ^ k : ℤ) / (q.den : ℤ))
  let sign := if q.num < 0 then "-" else ""
  let digits := toString scaled.natAbs
  let digits :=
    if digits.length ≤ k then ⟨List.replicate (k + 1 - digits.length) '0'⟩ ++ digits
    else digits
  sign ++ digits.take (digits.length - k) ++ "." ++ digits.drop (digits.length - k)

/-- Rendering of a number as Python prints it: integers bare, and for floats
the exact decimal when the denominator divides a power of ten (which is the
case for every decimal literal the model can emit; Python's shortest-repr
float printing agrees there).  Other rationals (never produced by parsing)
fall back to `num/den`. -/
def pyNumRepr (q : ℚ) : String :=
  if q.den = 1 then toString q.num
  else
    match (List.range 30).find? (fun k => decide ((q.den : ℤ) ∣ (10 ^ k : ℤ))) with
    | some k => decimalRepr q k
    | none => toString q.num ++ "/" ++ toString q.den

mutual

/-- `json.dumps(..., ensure_ascii=True)` with the given item and key/value
separators (the default is `", "` / `": "`). -/
def dumpJson (itemSep kvSep : String) : JVal → String
  | .null => "null"
  | .bool b => if b then "true" else "false"
  | .num q => pyNumRepr q
  | .str s => escapeJsonString s
  | .arr xs => "[" ++ String.intercalate itemSep (dumpJsonList itemSep kvSep xs) ++ "]"
  | .obj kvs => ⟨[cLB]⟩ ++ String.intercalate itemSep (dumpJsonObj itemSep kvSep kvs) ++ ⟨[cRB]⟩

def dumpJsonList (itemSep kvSep : String) : List JVal → List String
  | [] => []
  | v :: rest => dumpJson itemSep kvSep v :: dumpJsonList itemSep kvSep rest

def dumpJsonObj (itemSep kvSep : String) : List (String × JVal) → List String
  | [] => []
  | (k, v) :: rest =>
      (escapeJsonString k ++ kvSep ++ dumpJson itemSep kvSep v) :: dumpJsonObj itemSep kvSep rest

end

/-- `json.dumps(v, ensure_ascii=True)` with default separators, as used by
`build_sheet_row`. -/
def jsonDumps (v : JVal) : String := dumpJson ", " ": " v

/-- Python `str(x)` on a JSON value (container repr approximated by its JSON
serialisation; the interpolated values in the report are strings/numbers). -/
def pyStrJ : JVal → String
  | .str s => s
  | .num q => pyNumRepr q
  | .bool b => if b then "True" else "False"
  | .null => "None"
  | v => jsonDumps v

/-- `str.replace("\n", " ")`. -/
def pyReplaceNl (s : String) : String :=
  ⟨s.data.map (fun c => if c = '\n' then ' ' else c)⟩

/-- `_as_list` from `report_writer.py`. -/
def asList (v : JVal) : List JVal :=
  match v with
  | .arr xs => xs
  | .null => []
  | .str s => if s = "" then [] else [.str s]
  | other => [other]

/-- `_fmt_list` from `report_writer.py`. -/
def fmtList (items : List JVal) : String :=
  if items.isEmpty then "(없음)"
  else String.intercalate "\n" (items.map (fun x => "- " ++ pyStrJ x))

def groupLines : List (String × JVal) → List String
  | [] => []
  | (k, v) :: rest => ("### " ++ k) :: fmtList (asList v) :: "" :: groupLines rest

/-- `_fmt_grouped_list` from `report_writer.py`. -/
def fmtGroupedList (group : JVal) : String :=
  match group with
  | .obj kvs =>
    if kvs.isEmpty then "(없음)"
    else pyStrip (String.intercalate "\n" (groupLines kvs))
  | _ => "(없음)"

/-- One row of the per-item table. -/
def itemEvalRow (k : String) (v : JVal) : String :=
  match v with
  | .obj _ =>
    -- `(value.get("comment", "") or "").replace("\n", " ")`; a truthy
    -- non-string here would raise in Python, str() totalises that edge.
    let score := pyStrJ (objGet v "score" (.str ""))
    let comment := pyReplaceNl (pyStrJ (pyOr (objGet v "comment" (.str "")) (.str "")))
    let feedback := pyReplaceNl (pyStrJ (pyOr (objGet v "feedback" (.str "")) (.str "")))
    "| " ++ k ++ " | " ++ score ++ " | " ++ comment ++ " | " ++ feedback ++ " |"
  | _ => "| " ++ k ++ " |  |  |  |"

/-- `_fmt_item_evaluations` from `report_writer.py`. -/
def fmtItemEvaluations (items : JVal) : String :=
  match items with
  | .obj kvs =>
    if kvs.isEmpty then "(없음)"
    else
      String.intercalate "\n"
        (["| 항목 | 점수 | 평가 | 피드백 |", "|---|---|---|---|"] ++
          kvs.map (fun kv => itemEvalRow kv.1 kv.2))
  | _ => "(없음)"

/-- `file_name.rsplit(".", 1)[0]`. -/
def pyRsplitDotHead (s : String) : String :=
  match rfindIdx s.data '.' with
  | none => s
  | some i => ⟨s.data.take i⟩

/-- `_extract_company_name` from `report_writer.py`. -/
def extractCompanyName (fileName : String) (step1 : JVal) : String :=
  let cn := objGet step1 "company_name" (.str "")
  if truthy cn then pyStrJ cn else pyRsplitDotHead fileName

/-- `x or '(없음)'` rendered into an f-string. -/
def orMissing (v : JVal) : String := if truthy v then pyStrJ v else "(없음)"

/-- `render_report` from `report_writer.py`.  The call
`datetime.now(tz=kst).strftime("%y.%m.%d")` is modelled by the explicit
`now` argument: the report's title line embeds the rendering date. -/
def renderReport (now fileName : String) (step1 : JVal) (step2 : Option JVal)
    (ps : PScores) (recs : Recs) (finalVerdict : String) : String :=
  let companyName := extractCompanyName fileName step1
  let oneLine := objGet step1 "one_line_summary" (.str "")
  let overallSummary := objGet step1 "overall_summary" (.str "")
  let logicScore := objGet step1 "logic_score" (.str "")
  let step1Final := pyOr (objGet step1 "final_verdict" (.str "")) (.str finalVerdict)
  let exceptionTag := objGet step1 "exception_tag" (.str "")
  let recommendationMessage := objGet step1 "recommendation_message" (.str "")
  let itemEvaluations := objGet step1 "item_evaluations" (.obj [])
  let strengths := objGet step1 "strengths" (.obj [])
  let weaknesses := objGet step1 "weaknesses" (.obj [])
  let redFlags := objGet step1 "red_flags" (.arr [])
  let stageScore := match step2 with | some v => objGet v "stage_score" (.str "") | none => .str ""
  let industryScore := match step2 with | some v => objGet v "industry_score" (.str "") | none => .str ""
  let bmScore := match step2 with | some v => objGet v "bm_score" (.str "") | none => .str ""
  let axisComments := match step2 with | some v => objGet v "axis_comments" (.obj []) | none => .obj []
  let validationQuestions := match step2 with | some v => objGet v "validation_questions" (.obj []) | none => .obj []
  String.intercalate "\n"
    [ "# " ++ companyName ++ " 분석 결과 " ++ now,
      "",
      "기업설명: " ++ pyStrJ oneLine,
      "",
      "## 필터링 결과",
      "- 분류: " ++ orMissing step1Final,
      "- 종합 점수: " ++ pyStrJ logicScore ++ " / 100 (상한 92)",
      "- 추천 메시지: " ++ orMissing recommendationMessage,
      "- 예외 태그: " ++ orMissing exceptionTag,
      "",
      "## 평가 점수",
      "| 관점 | 점수 | 추천여부 |",
      "|---|---|---|",
      "| Critical | " ++ toString ps.critical ++ " | " ++ recs.critical ++ " |",
      "| Neutral | " ++ toString ps.neutral ++ " | " ++ recs.neutral ++ " |",
      "| Positive | " ++ toString ps.positive ++ " | " ++ recs.positive ++ " |",
      "",
      "## 종합 요약",
      (if truthy overallSummary then pyStrJ overallSummary else "(없음)"),
      "",
      "## 근거 요약",
      "### Evidence (증명된 요소)",
      fmtGroupedList strengths,
      "",
      "### Gap (정보 공백/미기재)",
      fmtGroupedList weaknesses,
      "",
      "### Risk (구조적/치명 리스크 신호)",
      fmtList (asList redFlags),
      "",
      "## 항목별 평가 (호환용)",
      fmtItemEvaluations itemEvaluations,
      "",
      "## 산업/단계/BM 코멘트 (선택)",
      fmtGroupedList axisComments,
      "",
      "## 검증 질문 (선택)",
      fmtGroupedList validationQuestions,
      "",
      "## Final Verdict",
      orMissing step1Final,
      "",
      "## Debug",
      "- Step1 logic_score: " ++ pyStrJ logicScore,
      "- Step2 axis score (stage/industry/BM): " ++ pyStrJ stageScore ++ " / " ++
        pyStrJ industryScore ++ " / " ++ pyStrJ bmScore ]

def isDict : JVal → Bool
  | .obj _ => true
  | _ => false

/-- `step2.get(k, "") if isinstance(step2, dict) else ""`. -/
def dictGetIfDict (v : JVal) (k : String) : JVal :=
  if isDict v then objGet v k (.str "") else .str ""

/-- `build_sheet_row` from `app.py`.  `kst_now()` appears only as the default
timestamp and is modelled by the `now` argument. -/
def buildSheetRow (now : String) (entry : JVal) (sourceFolderId : String) :
    List (String × JVal) :=
  let step1 := objGet entry "step1" (.obj [])
  let ps := objGet entry "perspective_scores" (.obj [])
  let recs := objGet entry "recommendations" (.obj [])
  let step2 := objGet entry "step2" (.obj [])
  [("timestamp(KST)", objGet entry "timestamp" (.str now)),
   ("file_id", objGet entry "file_id" (.str "")),
   ("file_name", objGet entry "file_name" (.str "")),
   ("source_folder", .str sourceFolderId),
   ("company_name", objGet step1 "company_name" (.str "")),
   ("company_description", objGet step1 "one_line_summary" (.str "")),
   ("score_critical", objGet ps "critical" (.str "")),
   ("score_neutral", objGet ps "neutral" (.str "")),
   ("score_positive", objGet ps "positive" (.str "")),
   ("recommendation_critical", objGet recs "critical" (.str "")),
   ("recommendation_neutral", objGet recs "neutral" (.str "")),
   ("recommendation_positive", objGet recs "positive" (.str "")),
   ("overall_summary", objGet step1 "overall_summary" (.str "")),
   ("item_evaluations_json", .str (jsonDumps (objGet step1 "item_evaluations" (.obj [])))),
   ("strengths_json", .str (jsonDumps (objGet step1 "strengths" (.obj [])))),
   ("weaknesses_json", .str (jsonDumps (objGet step1 "weaknesses" (.obj [])))),
   ("red_flags_json", .str (jsonDumps (objGet step1 "red_flags" (.arr [])))),
   ("axis_scores_json", .str (jsonDumps (.obj [
      ("stage", dictGetIfDict step2 "stage_score"),
      ("industry", dictGetIfDict step2 "industry_score"),
      ("bm", dictGetIfDict step2 "bm_score")]))),
   ("axis_comments_json",
      .str (jsonDumps (if isDict step2 then objGet step2 "axis_comments" (.obj []) else .obj []))),
   ("validation_questions_json",
      .str (jsonDumps (if isDict step2 then objGet step2 "validation_questions" (.obj []) else .obj []))),
   ("final_verdict", objGet entry "final_verdict" (.str "")),
   ("report_file_url", objGet entry "report_file_url" (.str "")),
   ("result_json_url", objGet entry "result_json_file_url" (.str ""))]

/-- `float(step1.get("logic_score", 0) or 0)`. -/
def logicScoreOf (step1 : JVal) : Except Unit ℚ := pyFloatField step1 "logic_score"

/-- The `if step2: ... else: normalized_step2 = 0.0` block shared by
`compute_final_scores` and `compute_perspective_scores`: the normalised
stage-2 (axis) contribution, exactly zero when Stage 2 did not run. -/
def axisNormalized (step2 : Option JVal) : Except Unit ℚ :=
  match step2 with
  | none => .ok 0
  | some v =>
    if truthy v then do
      let stage ← pyFloatField v "stage_score"
      let industry ← pyFloatField v "industry_score"
      let bm ← pyFloatField v "bm_score"
      .ok ((stage + industry + bm) / 30 * 100)
    else .ok 0

/-- `compute_final_scores` from `app.py`. -/
def computeFinalScores (step1 : JVal) (step2 : Option JVal) : Except Unit FScores := do
  let logic ← logicScoreOf step1
  let norm ← axisNormalized step2
  let raw := (7/10 : ℚ) * logic + (3/10 : ℚ) * norm
  let clamped := max 0 (min 92 raw)
  .ok ⟨pyRound2 clamped, pyRound2 clamped, pyRound2 clamped⟩

/-- `compute_perspective_scores` from `app.py`.  Note: the code applies
`min(92, int(round(x)))` with no lower clamp. -/
def computePerspectiveScores (step1 : JVal) (step2 : Option JVal) : Except Unit PScores := do
  let logic ← logicScoreOf step1
  let norm ← axisNormalized step2
  let critical := (7/10 : ℚ) * logic + (3/10 : ℚ) * norm
  let neutral := (6/10 : ℚ) * logic + (4/10 : ℚ) * norm
  let positive := (5/10 : ℚ) * logic + (5/10 : ℚ) * norm
  .ok ⟨min 92 (roundHalfEven critical),
       min 92 (roundHalfEven neutral),
       min 92 (roundHalfEven positive)⟩

/-- `recommendation_for` from `app.py`. -/
def recommendationFor (score : ℤ) : String :=
  if score ≥ 80 then "추천"
  else if score ≥ 70 then "조건부 권장"
  else "보류"

/-- `derive_recommendations` from `app.py`. -/
def deriveRecommendations (ps : PScores) : Recs :=
  ⟨recommendationFor ps.critical, recommendationFor ps.neutral, recommendationFor ps.positive⟩

/-- `MODEL_NAME` from `config.py`. -/
def MODEL_NAME : String := "gemini-2.5-flash"

/-- `hash_cache_key` from `utils.py`: the SHA-256 digest of the "::"-joined
parts.  The cryptographic digest is abstracted as the function `h`; its
collision resistance is idealised as injectivity in the theorems. -/
def hashCacheKey (h : String → String) (parts : List String) : String :=
  h (String.intercalate "::" parts)

/-- `hash_prompt` from `config.py` (SHA-256 of the prompt text). -/
def hashPrompt (h : String → String) (text : String) : String := h text

/-- `md5_text` from `config.py` (MD5 digest of the content). -/
def md5Text (md5 : String → String) (text : String) : String := md5 text

/-- `compute_cache_key` from `app.py`, with the configuration constant
`MODEL_NAME` exposed as the parameter it is. -/
def computeCacheKeyWith (h md5 : String → String)
    (modelName fileId content modifiedTime step1Hash step2Hash : String) : String :=
  hashCacheKey h [fileId, md5Text md5 content, modifiedTime, step1Hash, step2Hash, modelName]

/-- `compute_cache_key` from `app.py` at the shipped `MODEL_NAME`. -/
def computeCacheKey (h md5 : String → String)
    (fileId content modifiedTime step1Hash step2Hash : String) : String :=
  computeCacheKeyWith h md5 MODEL_NAME fileId content modifiedTime step1Hash step2Hash

/-- The exception reaching the `except` clause of `evaluate_file`: class name
and message. -/
structure PyExc where
  etype : String
  msg : String
deriving Repr, DecidableEq

/-- `_retry(stage=..., func=...)`: the retries and sleeps are opaque; the
post-retry outcome is supplied by the environment, and a final failure is
re-raised as `RuntimeError(f"stage=... | ...")` by `wrap_stage_error`. -/
def wrapStageError (stage msg : String) : String := "stage=" ++ stage ++ " | " ++ msg

def retryOutcome {α : Type} (stage : String) (r : Except String α) : Except PyExc α :=
  match r with
  | .ok a => .ok a
  | .error m => .error ⟨"RuntimeError", wrapStageError stage m⟩

/-- The structured failure produced by `format_error_info`. -/
structure ErrInfo where
  etype : String
  message : String
  fileId : String
  fileName : String
deriving Repr, DecidableEq

/-- `str(exc).replace("\n", " ")[:300]`. -/
def truncMsg (s : String) : String := ⟨(pyReplaceNl s).data.take 300⟩

/-- `format_error_info` from `app.py`. -/
def formatErrorInfo (e : PyExc) (fileId fileName : String) : ErrInfo :=
  ⟨e.etype, truncMsg e.msg, fileId, fileName⟩

/-- The outcomes of the external calls made during one `evaluate_file` run
(drive download, the two Oracle stages, the artifact uploads) plus the wall
clock, supplied by the environment.  Each `Except String` value is the
post-retry outcome carrying the final exception message on failure. -/
structure Ext where
  content : Except String String
  step1 : Except String JVal
  step2 : Except String JVal
  reportUpload : Except String String
  reportLink : Except String String
  jsonFolder : Except PyExc String
  step1Upload : Except String String
  step1Link : Except String String
  step2Upload : Except String String
  step2Link : Except String String
  resultUpload : Except String String
  resultLink : Except String String
  now : String

/-- The per-document status of an `evaluate_file` run. -/
inductive Outcome where
  | skipped (entry : JVal)
  | done (entry : JVal) (reportMd : String)
  | failed (err : ErrInfo)
deriving Repr

/-- An `evaluate_file` run: the returned status, the cache contents after
the run, whether Stage 2 was invoked, and how many Oracle calls were made. -/
structure RunResult where
  outcome : Outcome
  cache : List (String × JVal)
  stage2Invoked : Bool
  oracleCalls : Nat
deriving Repr

def errInfoJ (e : ErrInfo) : JVal :=
  .obj [("type", .str e.etype), ("message", .str e.message),
        ("file_id", .str e.fileId), ("file_name", .str e.fileName)]

/-- The `fail_entry` dict written by the `except` clause of `evaluate_file`. -/
def mkFailEntry (fileId fileName folder now : String) (err : ErrInfo) : JVal :=
  .obj [("file_id", .str fileId), ("file_name", .str fileName),
        ("source_folder", .str folder), ("timestamp", .str now),
        ("status", .str "실패"), ("error", errInfoJ err)]

def psJ (ps : PScores) : JVal :=
  .obj [("critical", .num ps.critical), ("neutral", .num ps.neutral),
        ("positive", .num ps.positive)]

def recsJ (r : Recs) : JVal :=
  .obj [("critical", .str r.critical), ("neutral", .str r.neutral),
        ("positive", .str r.positive)]

def fsJ (f : FScores) : JVal :=
  .obj [("conservative", .num f.conservative), ("neutral", .num f.neutral),
        ("optimistic", .num f.optimistic)]

def optJ : Option JVal → JVal
  | none => .null
  | some v => v

/-- The `cache_entry` dict built on the success path of `evaluate_file`. -/
def mkCacheEntry (fileId fileName folder reportId reportUrl s1Id s1Url s2Id s2Url
    resId resUrl now : String) (step1 : JVal) (step2 : Option JVal)
    (finalScores : FScores) (ps : PScores) (recs : Recs) (verdict : String) : JVal :=
  .obj [("file_id", .str fileId), ("file_name", .str fileName),
        ("source_folder", .str folder),
        ("report_file_id", .str reportId), ("report_file_url", .str reportUrl),
        ("step1_json_file_id", .str s1Id), ("step1_json_file_url", .str s1Url),
        ("step2_json_file_id", .str s2Id), ("step2_json_file_url", .str s2Url),
        ("result_json_file_id", .str resId), ("result_json_file_url", .str resUrl),
        ("timestamp", .str now),
        ("summary", objGet step1 "one_line_summary" (.str "")),
        ("step1", step1), ("step2", optJ step2),
        ("final_scores", fsJ finalScores), ("perspective_scores", psJ ps),
        ("recommendations", recsJ recs), ("final_verdict", .str verdict)]

/-- `step2_json.get(k) if step2_json else ""` in `result_payload`. -/
def axisVal (step2 : Option JVal) (k : String) : JVal :=
  match step2 with
  | some v => if truthy v then objGet v k .null else .str ""
  | none => .str ""

/-- `step2_json.get(k) if step2_json else {}` in `result_payload`. -/
def axisObjVal (step2 : Option JVal) (k : String) : JVal :=
  match step2 with
  | some v => if truthy v then objGet v k .null else .obj []
  | none => .obj []

/-- The `result_payload` dict uploaded next to the report (the upload body is
opaque to the external service model; the structure is kept for fidelity). -/
def mkResultPayload (fileId fileName now : String) (step1 : JVal)
    (step2 : Option JVal) (ps : PScores) (recs : Recs) (verdict : String) : JVal :=
  .obj [("file_id", .str fileId), ("file_name", .str fileName),
        ("timestamp", .str now),
        ("company_name", objGet step1 "company_name" (.str "")),
        ("company_description", objGet step1 "one_line_summary" (.str "")),
        ("scores", psJ ps), ("recommendations", recsJ recs),
        ("final_verdict", .str verdict),
        ("overall_summary", objGet step1 "overall_summary" (.str "")),
        ("item_evaluations", objGet step1 "item_evaluations" (.obj [])),
        ("strengths", objGet step1 "strengths" (.obj [])),
        ("weaknesses", objGet step1 "weaknesses" (.obj [])),
        ("red_flags", objGet step1 "red_flags" (.arr [])),
        ("axis_scores", .obj [("stage", axisVal step2 "stage_score"),
                              ("industry", axisVal step2 "industry_score"),
                              ("bm", axisVal step2 "bm_score")]),
        ("axis_comments", axisObjVal step2 "axis_comments"),
        ("validation_questions", axisObjVal step2 "validation_questions")]

/-- The `except` clause of `evaluate_file`: format the error, and write a
fail entry into the cache when (and only when) the cache key was computed. -/
def failResult (fileId fileName folder now key : String)
    (cache : List (String × JVal)) (invoked : Bool) (calls : Nat)
    (e : PyExc) : RunResult :=
  let err := formatErrorInfo e fileId fileName
  { outcome := .failed err,
    cache := if key ≠ "" then setField cache key (mkFailEntry fileId fileName folder now err) else cache,
    stage2Invoked := invoked,
    oracleCalls := calls }

/-- The tail of `evaluate_file` after scoring: report rendering already done,
now the retried uploads (`upload_report` stage), `ensure_json_folder` (not
retried), the conditional step-2 JSON upload, the result JSON upload, and
finally `cache.set` (an in-memory dict write that cannot fail). -/
def runUploads (ext : Ext) (cache : List (String × JVal))
    (folder fileId fileName key : String) (s1 : JVal) (s2opt : Option JVal)
    (finalScores : FScores) (ps : PScores) (recs : Recs) (verdict reportMd : String)
    (invoked : Bool) (calls : Nat) : RunResult :=
  match retryOutcome "upload_report" ext.reportUpload with
  | .error e => failResult fileId fileName folder ext.now key cache invoked calls e
  | .ok reportId =>
  match retryOutcome "upload_report" ext.reportLink with
  | .error e => failResult fileId fileName folder ext.now key cache invoked calls e
  | .ok reportUrl =>
  match ext.jsonFolder with
  | .error e => failResult fileId fileName folder ext.now key cache invoked calls e
  | .ok _jsonFolderId =>
  match retryOutcome "upload_report" ext.step1Upload with
  | .error e => failResult fileId fileName folder ext.now key cache invoked calls e
  | .ok s1Id =>
  match retryOutcome "upload_report" ext.step1Link with
  | .error e => failResult fileId fileName folder ext.now key cache invoked calls e
  | .ok s1Url =>
  match (match s2opt with
         | some v =>
           if truthy v then
             (retryOutcome "upload_report" ext.step2Upload).bind fun i =>
               (retryOutcome "upload_report" ext.step2Link).map fun u => (i, u)
           else .ok ("", "")
         | none => .ok ("", "")) with
  | .error e => failResult fileId fileName folder ext.now key cache invoked calls e
  | .ok s2ids =>
  match retryOutcome "upload_report" ext.resultUpload with
  | .error e => failResult fileId fileName folder ext.now key cache invoked calls e
  | .ok resId =>
  match retryOutcome "upload_report" ext.resultLink with
  | .error e => failResult fileId fileName folder ext.now key cache invoked calls e
  | .ok resUrl =>
    let entry := mkCacheEntry fileId fileName folder reportId reportUrl s1Id s1Url
      s2ids.1 s2ids.2 resId resUrl ext.now s1 s2opt finalScores ps recs verdict
    { outcome := .done entry reportMd,
      cache := setField cache key entry,
      stage2Invoked := invoked,
      oracleCalls := calls }

/-- Scoring and merging after the gate decision: `compute_final_scores`,
`compute_perspective_scores`, recommendations, final verdict (the critical
recommendation), report rendering, then the uploads.  A `float()` failure on
an adversarial score raises and falls to the `except` clause unretried. -/
def runScoring (ext : Ext) (cache : List (String × JVal))
    (folder fileId fileName key : String) (s1 : JVal) (s2opt : Option JVal)
    (invoked : Bool) (calls : Nat) : RunResult :=
  match computeFinalScores s1 s2opt with
  | .error _ => failResult fileId fileName folder ext.now key cache invoked calls
      ⟨"ValueError", "could not convert score"⟩
  | .ok finalScores =>
  match computePerspectiveScores s1 s2opt with
  | .error _ => failResult fileId fileName folder ext.now key cache invoked calls
      ⟨"ValueError", "could not convert score"⟩
  | .ok ps =>
    let recs := deriveRecommendations ps
    let verdict := recs.critical
    let reportMd := renderReport ext.now fileName s1 s2opt ps recs verdict
    runUploads ext cache folder fileId fileName key s1 s2opt finalScores ps recs
      verdict reportMd invoked calls

/-- Stage 1 and the gate: parse outcome from the environment, extract and
coerce `logic_score`, set `pass_gate = logic_score >= 80`, and invoke
Stage 2 iff the gate holds. -/
def runStage1 (ext : Ext) (cache : List (String × JVal))
    (folder fileId fileName key : String) : RunResult :=
  match retryOutcome "step1" ext.step1 with
  | .error e => failResult fileId fileName folder ext.now key cache false 1 e
  | .ok s1 =>
  match logicScoreOf s1 with
  | .error _ => failResult fileId fileName folder ext.now key cache false 1
      ⟨"ValueError", "could not convert logic_score"⟩
  | .ok logic =>
    let s1g := objSet s1 "pass_gate" (.bool (decide (logic ≥ 80)))
    if truthy (objGet s1g "pass_gate" (.bool false)) then
      match retryOutcome "step2" ext.step2 with
      | .error e => failResult fileId fileName folder ext.now key cache true 2 e
      | .ok s2 => runScoring ext cache folder fileId fileName key s1g (some s2) true 2
    else
      runScoring ext cache folder fileId fileName key s1g none false 1

/-- `evaluate_file` from `app.py`: download, cache lookup (skip on a truthy
hit without force-rerun), the gated two-stage evaluation, scoring, artifact
uploads and the cache write; any exception is caught by the `except` clause
(`failResult`).  A download failure happens while `cache_key` is still `""`,
so it writes nothing to the cache. -/
def evaluateFile (ext : Ext) (cache : List (String × JVal)) (h md5 : String → String)
    (fileId fileName modifiedTime folder p1h p2h : String) (force : Bool) : RunResult :=
  match retryOutcome "download" ext.content with
  | .error e => failResult fileId fileName folder ext.now "" cache false 0 e
  | .ok content =>
    let key := computeCacheKey h md5 fileId content modifiedTime p1h p2h
    match (match lookupField cache key with
           | some c => if truthy c ∧ !force then some c else none
           | none => none) with
    | some cached =>
      { outcome := .skipped cached, cache := cache, stage2Invoked := false, oracleCalls := 0 }
    | none => runStage1 ext cache folder fileId fileName key

/-- Modelled from the spec: this revision of `app.py` carries no sub-item
weight tables (`compute_final_scores` blends only `logic_score` and the axis
scores), so the ScoringEngine weight blending of spec §4.3 is modelled here.
Each of the 8 fixed sub-items has a default uniform weight of 1/8. -/
def defaultWeights : Fin 8 → ℚ := fun _ => 1/8

/-- Modelled from the spec: lookup of a weight row by declared label,
falling back to the default table when the label is unrecognised. -/
def lookupWeights (table : String → Option (Fin 8 → ℚ)) (label : String) : Fin 8 → ℚ :=
  (table label).getD defaultWeights

/-- Modelled from the spec: the effective weight of an item is the
arithmetic mean of the default weight, the stage-table value and the
industry-table value. -/
def blendedWeights (stageTable industryTable : String → Option (Fin 8 → ℚ))
    (stageLabel industryLabel : String) : Fin 8 → ℚ :=
  fun i =>
    (defaultWeights i + lookupWeights stageTable stageLabel i +
      lookupWeights industryTable industryLabel i) / 3

/-- Modelled from the spec: the 8 blended weights are re-normalised to sum
to 1 before forming the weighted item score. -/
def effectiveWeights (stageTable industryTable : String → Option (Fin 8 → ℚ))
    (stageLabel industryLabel : String) : Fin 8 → ℚ :=
  fun i =>
    blendedWeights stageTable industryTable stageLabel industryLabel i /
      (∑ j : Fin 8, blendedWeights stageTable industryTable stageLabel industryLabel j)

/-- A well-formed weight row: non-negative entries summing to 1 (the spec
requires each table row to sum to 1). -/
def RowOk (w : Fin 8 → ℚ) : Prop := (∑ i, w i) = 1 ∧ ∀ i, 0 ≤ w i

/-- A well-formed lookup table: every row it defines is well-formed. -/
def TableOk (table : String → Option (Fin 8 → ℚ)) : Prop :=
  ∀ label w, table label = some w → RowOk w

theorem roundHalfEven_intCast (z : ℤ) : roundHalfEven (z : ℚ) = z := by
  simp [roundHalfEven, Int.floor_intCast]

theorem roundHalfEven_nonneg {q : ℚ} (h : 0 ≤ q) : 0 ≤ roundHalfEven q := by
  have hf : (0 : ℤ) ≤ ⌊q⌋ := Int.floor_nonneg.mpr h
  simp only [roundHalfEven]
  split_ifs <;> omega

theorem roundHalfEven_le_int {q : ℚ} {n : ℤ} (h : q ≤ (n : ℚ)) : roundHalfEven q ≤ n := by
  have hfl : ⌊q⌋ ≤ n := by
    have := Int.floor_le_floor h
    simpa using this
  have hfrac : ⌊q⌋ = n → q - ⌊q⌋ ≤ 0 := by
    intro he
    rw [he]
    linarith
  simp only [roundHalfEven]
  split_ifs with h1 h2 h3
  · exact hfl
  · rcases lt_or_eq_of_le hfl with hlt | he
    · omega
    · exfalso
      have := hfrac he
      linarith
  · exact hfl
  · rcases lt_or_eq_of_le hfl with hlt | he
    · omega
    · exfalso
      have := hfrac he
      push_neg at h1
      linarith

theorem pyRound2_nonneg {q : ℚ} (h : 0 ≤ q) : 0 ≤ pyRound2 q := by
  have : (0 : ℤ) ≤ roundHalfEven (q * 100) := roundHalfEven_nonneg (by positivity)
  unfold pyRound2
  positivity

theorem pyRound2_le_92 {q : ℚ} (h : q ≤ 92) : pyRound2 q ≤ 92 := by
  have h1 : roundHalfEven (q * 100) ≤ (9200 : ℤ) := by
    apply roundHalfEven_le_int
    push_cast
    linarith
  unfold pyRound2
  have h2 : ((roundHalfEven (q * 100) : ℚ)) ≤ 9200 := by exact_mod_cast h1
  linarith

/-- C1: the claim says every perspective score returned by
`compute_perspective_scores` lies in [0, 92] even for adversarial input.
The code only applies `min(92, ...)` with no lower clamp, so a negative
`logic_score` (-100) yields the scores (-70, -60, -50), all below 0. -/
theorem computePerspectiveScores_no_lower_clamp :
    computePerspectiveScores (.obj [("logic_score", .num (-100))]) none =
      .ok ⟨-70, -60, -50⟩ ∧ ((-70 : ℤ) < 0 ∧ (-60 : ℤ) < 0 ∧ (-50 : ℤ) < 0) := by
  refine ⟨?_, by decide⟩
  have h1 : roundHalfEven ((-70 : ℤ) : ℚ) = -70 := roundHalfEven_intCast _
  have h2 : roundHalfEven ((-60 : ℤ) : ℚ) = -60 := roundHalfEven_intCast _
  have h3 : roundHalfEven ((-50 : ℤ) : ℚ) = -50 := roundHalfEven_intCast _
  push_cast at h1 h2 h3
  simp only [computePerspectiveScores, logicScoreOf, pyFloatField, objGet, lookupField,
    pyOr, truthy, pyFloat, axisNormalized, Bind.bind, Except.bind]
  norm_num [h1, h2, h3]

theorem defaultWeights_rowOk : RowOk defaultWeights := by
  constructor
  · simp [defaultWeights, Finset.sum_const, Finset.card_univ]
  · intro i
    norm_num [defaultWeights]

theorem lookupWeights_rowOk {table : String → Option (Fin 8 → ℚ)}
    (h : TableOk table) (label : String) : RowOk (lookupWeights table label) := by
  unfold lookupWeights
  cases hl : table label with
  | none => simpa using defaultWeights_rowOk
  | some w => simpa using h label w hl

/-- C5: for every pair of declared stage and industry labels (unrecognised
labels falling back to the default table), the 8 effective weights — the
arithmetic mean of default, stage-table and industry-table values,
re-normalised — are all non-negative and sum exactly to 1. -/
theorem effectiveWeights_normalized
    (stageTable industryTable : String → Option (Fin 8 → ℚ))
    (hs : TableOk stageTable) (hi : TableOk industryTable)
    (stageLabel industryLabel : String) :
    (∑ i : Fin 8, effectiveWeights stageTable industryTable stageLabel industryLabel i) = 1 ∧
      ∀ i, 0 ≤ effectiveWeights stageTable industryTable stageLabel industryLabel i := by
  have hd := defaultWeights_rowOk
  have hsr := lookupWeights_rowOk hs stageLabel
  have hir := lookupWeights_rowOk hi industryLabel
  have hblend_nonneg : ∀ i, 0 ≤ blendedWeights stageTable industryTable stageLabel industryLabel i := by
    intro i
    unfold blendedWeights
    have := hd.2 i
    have := hsr.2 i
    have := hir.2 i
    positivity
  have hblend_sum : (∑ j : Fin 8, blendedWeights stageTable industryTable stageLabel industryLabel j) = 1 := by
    unfold blendedWeights
    rw [← Finset.sum_div, Finset.sum_add_distrib, Finset.sum_add_distrib, hd.1, hsr.1, hir.1]
    norm_num
  constructor
  · unfold effectiveWeights
    rw [← Finset.sum_div, hblend_sum]
    simp
  · intro i
    unfold effectiveWeights
    rw [hblend_sum]
    simp only [div_one]
    exact hblend_nonneg i

/-- Witness for C5: with empty lookup tables (every label unrecognised, so
both lookups fall back to the default table) and arbitrary labels, the
effective weights sum to 1 and are non-negative. -/
theorem effectiveWeights_normalized_witness :
    (∑ i : Fin 8, effectiveWeights (fun _ => none) (fun _ => none) "Series Z" "Quantum" i) = 1 ∧
      ∀ i, 0 ≤ effectiveWeights (fun _ => none) (fun _ => none) "Series Z" "Quantum" i :=
  effectiveWeights_normalized (fun _ => none) (fun _ => none)
    (fun _ _ h => absurd h (by simp)) (fun _ _ h => absurd h (by simp))
    "Series Z" "Quantum"

theorem retryOutcome_ok {α : Type} (st : String) (a : α) :
    retryOutcome st (.ok a) = .ok a := rfl

theorem retryOutcome_error {α : Type} (st m : String) :
    (retryOutcome st (.error m) : Except PyExc α) =
      .error ⟨"RuntimeError", wrapStageError st m⟩ := rfl

theorem lookupField_setField (kvs : List (String × JVal)) (k : String) (v : JVal) :
    lookupField (setField kvs k v) k = some v := by
  induction kvs with
  | nil => simp [setField, lookupField]
  | cons hd tl ih =>
    obtain ⟨k', v'⟩ := hd
    by_cases hk : k' = k <;> simp [setField, lookupField, hk, ih]

theorem objGet_objSet_self (kvs : List (String × JVal)) (k : String) (v d : JVal) :
    objGet (objSet (.obj kvs) k v) k d = v := by
  simp [objSet, objGet, lookupField_setField]

theorem runUploads_stage2Invoked (ext : Ext) (cache : List (String × JVal))
    (folder fileId fileName key : String) (s1 : JVal) (s2opt : Option JVal)
    (fs : FScores) (ps : PScores) (recs : Recs) (verdict reportMd : String)
    (invoked : Bool) (calls : Nat) :
    (runUploads ext cache folder fileId fileName key s1 s2opt fs ps recs verdict
      reportMd invoked calls).stage2Invoked = invoked := by
  unfold runUploads
  repeat' split
  all_goals rfl

theorem runUploads_oracleCalls (ext : Ext) (cache : List (String × JVal))
    (folder fileId fileName key : String) (s1 : JVal) (s2opt : Option JVal)
    (fs : FScores) (ps : PScores) (recs : Recs) (verdict reportMd : String)
    (invoked : Bool) (calls : Nat) :
    (runUploads ext cache folder fileId fileName key s1 s2opt fs ps recs verdict
      reportMd invoked calls).oracleCalls = calls := by
  unfold runUploads
  repeat' split
  all_goals rfl

theorem runUploads_done_step2 (ext : Ext) (cache : List (String × JVal))
    (folder fileId fileName key : String) (s1 : JVal) (s2opt : Option JVal)
    (fs : FScores) (ps : PScores) (recs : Recs) (verdict reportMd : String)
    (invoked : Bool) (calls : Nat) (e : JVal) (md : String)
    (hdone : (runUploads ext cache folder fileId fileName key s1 s2opt fs ps recs
      verdict reportMd invoked calls).outcome = .done e md) :
    objGet e "step2" (.str "absent") = optJ s2opt := by
  unfold runUploads at hdone
  repeat' split at hdone
  all_goals simp only [failResult] at hdone
  all_goals cases hdone
  all_goals rfl

theorem runScoring_stage2Invoked (ext : Ext) (cache : List (String × JVal))
    (folder fileId fileName key : String) (s1 : JVal) (s2opt : Option JVal)
    (invoked : Bool) (calls : Nat) :
    (runScoring ext cache folder fileId fileName key s1 s2opt invoked
      calls).stage2Invoked = invoked := by
  unfold runScoring
  repeat' split
  all_goals first | rfl | apply runUploads_stage2Invoked

theorem runScoring_oracleCalls (ext : Ext) (cache : List (String × JVal))
    (folder fileId fileName key : String) (s1 : JVal) (s2opt : Option JVal)
    (invoked : Bool) (calls : Nat) :
    (runScoring ext cache folder fileId fileName key s1 s2opt invoked
      calls).oracleCalls = calls := by
  unfold runScoring
  repeat' split
  all_goals first | rfl | apply runUploads_oracleCalls

theorem runScoring_done_step2 (ext : Ext) (cache : List (String × JVal))
    (folder fileId fileName key : String) (s1 : JVal) (s2opt : Option JVal)
    (invoked : Bool) (calls : Nat) (e : JVal) (md : String)
    (hdone : (runScoring ext cache folder fileId fileName key s1 s2opt invoked
      calls).outcome = .done e md) :
    objGet e "step2" (.str "absent") = optJ s2opt := by
  unfold runScoring at hdone
  repeat' split at hdone
  · simp only [failResult] at hdone; cases hdone
  · simp only [failResult] at hdone; cases hdone
  · exact runUploads_done_step2 _ _ _ _ _ _ _ _ _ _ _ _ _ _ _ _ _ hdone

/-- C2: for a fresh (non-cached) run with a parsed Stage-1 result, Stage 2 is
invoked iff the gate `logic_score >= 80` holds; when the gate is false only
one Oracle call is made, the cached record's `step2` field is null, and the
downstream axis contribution (`normalized_step2`) is exactly zero. -/
theorem evaluateFile_gate_consistency
    (ext : Ext) (cache : List (String × JVal)) (h md5 : String → String)
    (fileId fileName modifiedTime folder p1h p2h : String) (force : Bool)
    (content : String) (kvs : List (String × JVal)) (L : ℚ)
    (hc : ext.content = .ok content)
    (hmiss : lookupField cache (computeCacheKey h md5 fileId content modifiedTime p1h p2h) = none)
    (hs1 : ext.step1 = .ok (.obj kvs))
    (hL : logicScoreOf (.obj kvs) = .ok L) :
    ((evaluateFile ext cache h md5 fileId fileName modifiedTime folder p1h p2h
        force).stage2Invoked = true ↔ 80 ≤ L) ∧
    (¬ 80 ≤ L →
      (evaluateFile ext cache h md5 fileId fileName modifiedTime folder p1h p2h
        force).oracleCalls = 1 ∧
      ∀ e md, (evaluateFile ext cache h md5 fileId fileName modifiedTime folder p1h p2h
        force).outcome = .done e md → objGet e "step2" (.str "absent") = JVal.null) ∧
    axisNormalized none = .ok 0 := by
  have hgate : truthy (objGet (objSet (.obj kvs) "pass_gate" (.bool (decide (L ≥ 80))))
      "pass_gate" (.bool false)) = decide (L ≥ 80) := by
    rw [objGet_objSet_self]
    rfl
  simp only [evaluateFile, hc, retryOutcome_ok, hmiss, runStage1, hs1, hL, hgate]
  by_cases h80 : 80 ≤ L
  · have : decide (L ≥ 80) = true := decide_eq_true h80
    rw [this]
    simp only [if_true]
    refine ⟨?_, fun hn => absurd h80 hn, rfl⟩
    cases hstep2 : ext.step2 with
    | error m => rw [retryOutcome_error]; simp [failResult, h80]
    | ok s2 =>
      rw [retryOutcome_ok]
      simp [runScoring_stage2Invoked, h80]
  · have : decide (L ≥ 80) = false := decide_eq_false h80
    rw [this]
    simp only [Bool.false_eq_true, if_false]
    refine ⟨?_, fun _ => ⟨runScoring_oracleCalls _ _ _ _ _ _ _ _ _ _, ?_⟩, rfl⟩
    · rw [runScoring_stage2Invoked]
      simp [h80]
    · intro e md hdone
      have := runScoring_done_step2 _ _ _ _ _ _ _ _ _ _ _ _ hdone
      simpa [optJ] using this

/-- Witness for C2 at a concrete run whose Stage-1 `logic_score` is 50: the
gate is false, Stage 2 is not invoked, and exactly one Oracle call is made. -/
theorem evaluateFile_gate_consistency_witness :
    (evaluateFile ⟨.ok "doc", .ok (.obj [("logic_score", .num 50)]), .error "never",
        .error "e", .error "e", .error ⟨"", ""⟩, .error "e", .error "e", .error "e",
        .error "e", .error "e", .error "e", "NOW"⟩ [] id id
        "fid" "fn" "mt" "folder" "p1h" "p2h" false).stage2Invoked = false ∧
    (evaluateFile ⟨.ok "doc", .ok (.obj [("logic_score", .num 50)]), .error "never",
        .error "e", .error "e", .error ⟨"", ""⟩, .error "e", .error "e", .error "e",
        .error "e", .error "e", .error "e", "NOW"⟩ [] id id
        "fid" "fn" "mt" "folder" "p1h" "p2h" false).oracleCalls = 1 ∧
    axisNormalized none = .ok 0 := by
  have hmain := evaluateFile_gate_consistency
    ⟨.ok "doc", .ok (.obj [("logic_score", .num 50)]), .error "never",
      .error "e", .error "e", .error ⟨"", ""⟩, .error "e", .error "e", .error "e",
      .error "e", .error "e", .error "e", "NOW"⟩ [] id id
    "fid" "fn" "mt" "folder" "p1h" "p2h" false "doc"
    [("logic_score", .num 50)] 50 rfl rfl rfl rfl
  have hnot : ¬ (80 : ℚ) ≤ 50 := by norm_num
  obtain ⟨hiff, himp, hax⟩ := hmain
  refine ⟨?_, (himp hnot).1, hax⟩
  cases hb : (evaluateFile ⟨.ok "doc", .ok (.obj [("logic_score", .num 50)]), .error "never",
      .error "e", .error "e", .error ⟨"", ""⟩, .error "e", .error "e", .error "e",
      .error "e", .error "e", .error "e", "NOW"⟩ [] id id
      "fid" "fn" "mt" "folder" "p1h" "p2h" false).stage2Invoked
  · rfl
  · exact absurd (hiff.mp hb) hnot

/-- C3: with the fingerprint already cached under a truthy entry and no
force-rerun, a second `evaluate_file` run returns the cached record verbatim
with status skipped, makes zero Oracle calls and leaves the cache unchanged;
with force-rerun a fresh two-stage run happens and `cache.set` replaces the
record at the fingerprint wholesale with the newly built entry, whose value
is independent of whatever was previously cached. -/
theorem evaluateFile_cache_idempotence_and_force_replace
    (ext : Ext) (cache : List (String × JVal)) (h md5 : String → String)
    (fileId fileName modifiedTime folder p1h p2h content : String)
    (hc : ext.content = .ok content) :
    (∀ cached,
       lookupField cache (computeCacheKey h md5 fileId content modifiedTime p1h p2h) = some cached →
       truthy cached = true →
       evaluateFile ext cache h md5 fileId fileName modifiedTime folder p1h p2h false =
         ⟨.skipped cached, cache, false, 0⟩) ∧
    (∀ (kvs : List (String × JVal)) (L : ℚ) (s2 : JVal) (fs : FScores) (ps : PScores)
       (rid rurl jf s1id s1url s2id s2url resid resurl : String),
       ext.step1 = .ok (.obj kvs) →
       logicScoreOf (.obj kvs) = .ok L →
       80 ≤ L →
       ext.step2 = .ok s2 →
       truthy s2 = true →
       computeFinalScores (objSet (.obj kvs) "pass_gate" (.bool true)) (some s2) = .ok fs →
       computePerspectiveScores (objSet (.obj kvs) "pass_gate" (.bool true)) (some s2) = .ok ps →
       ext.reportUpload = .ok rid →
       ext.reportLink = .ok rurl →
       ext.jsonFolder = .ok jf →
       ext.step1Upload = .ok s1id →
       ext.step1Link = .ok s1url →
       ext.step2Upload = .ok s2id →
       ext.step2Link = .ok s2url →
       ext.resultUpload = .ok resid →
       ext.resultLink = .ok resurl →
       ∀ entry, entry = mkCacheEntry fileId fileName folder rid rurl s1id s1url s2id s2url
           resid resurl ext.now (objSet (.obj kvs) "pass_gate" (.bool true)) (some s2) fs ps
           (deriveRecommendations ps) (deriveRecommendations ps).critical →
       evaluateFile ext cache h md5 fileId fileName modifiedTime folder p1h p2h true =
         ⟨.done entry (renderReport ext.now fileName (objSet (.obj kvs) "pass_gate" (.bool true))
             (some s2) ps (deriveRecommendations ps) (deriveRecommendations ps).critical),
          setField cache (computeCacheKey h md5 fileId content modifiedTime p1h p2h) entry,
          true, 2⟩ ∧
       lookupField (setField cache (computeCacheKey h md5 fileId content modifiedTime p1h p2h) entry)
           (computeCacheKey h md5 fileId content modifiedTime p1h p2h) = some entry) := by
  constructor
  · intro cached hhit htr
    simp only [evaluateFile, hc, retryOutcome_ok, hhit, htr]
    simp
  · intro kvs L s2 fs ps rid rurl jf s1id s1url s2id s2url resid resurl
    intro hs1 hL h80 hs2 hs2t hfs hps hru hrl hjf hsu hsl h2u h2l hresu hresl entry hentry
    have hdec : decide (L ≥ 80) = true := decide_eq_true h80
    have hgate : truthy (objGet (objSet (.obj kvs) "pass_gate" (.bool true))
        "pass_gate" (.bool false)) = true := by
      rw [objGet_objSet_self]
      rfl
    refine ⟨?_, ?_⟩
    · simp only [evaluateFile, hc, retryOutcome_ok]
      have hskip : (match lookupField cache (computeCacheKey h md5 fileId content modifiedTime p1h p2h) with
          | some c => if truthy c = true ∧ (!true) = true then some c else none
          | none => none) = (none : Option JVal) := by
        cases lookupField cache (computeCacheKey h md5 fileId content modifiedTime p1h p2h) <;> simp
      rw [hskip]
      simp only [runStage1, hs1, retryOutcome_ok, hL, hdec, hgate, if_true,
        runScoring, hs2, hfs, hps, runUploads, hru, hrl, hjf, hsu, hsl, hs2t,
        h2u, h2l, hresu, hresl]
      simp only [Except.bind, Except.map, hentry]
    · rw [lookupField_setField]

/-- Witness for C3: a cached truthy entry is returned verbatim (status
skipped, zero Oracle calls) without force-rerun, and with force-rerun the
same cache state leads to a fresh two-stage run (two Oracle calls) whose new
entry replaces the old one at the fingerprint. -/
theorem evaluateFile_cache_idempotence_and_force_replace_witness :
    evaluateFile ⟨.ok "doc", .ok (.obj [("logic_score", .num 90), ("one_line_summary", .str "sum")]),
        .ok (.obj [("stage_score", .num 6), ("industry_score", .num 6), ("bm_score", .num 6)]),
        .ok "rid", .ok "rurl", .ok "jf", .ok "s1id", .ok "s1url", .ok "s2id", .ok "s2url",
        .ok "resid", .ok "resurl", "NOW"⟩
      [(computeCacheKey id id "fid" "doc" "mt" "p1h" "p2h", .obj [("status", .str "old")])]
      id id "fid" "fn" "mt" "folder" "p1h" "p2h" false =
      ⟨.skipped (.obj [("status", .str "old")]),
       [(computeCacheKey id id "fid" "doc" "mt" "p1h" "p2h", .obj [("status", .str "old")])],
       false, 0⟩ ∧
    (evaluateFile ⟨.ok "doc", .ok (.obj [("logic_score", .num 90), ("one_line_summary", .str "sum")]),
        .ok (.obj [("stage_score", .num 6), ("industry_score", .num 6), ("bm_score", .num 6)]),
        .ok "rid", .ok "rurl", .ok "jf", .ok "s1id", .ok "s1url", .ok "s2id", .ok "s2url",
        .ok "resid", .ok "resurl", "NOW"⟩
      [(computeCacheKey id id "fid" "doc" "mt" "p1h" "p2h", .obj [("status", .str "old")])]
      id id "fid" "fn" "mt" "folder" "p1h" "p2h" true).oracleCalls = 2 ∧
    lookupField
      (evaluateFile ⟨.ok "doc", .ok (.obj [("logic_score", .num 90), ("one_line_summary", .str "sum")]),
          .ok (.obj [("stage_score", .num 6), ("industry_score", .num 6), ("bm_score", .num 6)]),
          .ok "rid", .ok "rurl", .ok "jf", .ok "s1id", .ok "s1url", .ok "s2id", .ok "s2url",
          .ok "resid", .ok "resurl", "NOW"⟩
        [(computeCacheKey id id "fid" "doc" "mt" "p1h" "p2h", .obj [("status", .str "old")])]
        id id "fid" "fn" "mt" "folder" "p1h" "p2h" true).cache
      (computeCacheKey id id "fid" "doc" "mt" "p1h" "p2h") =
      some (mkCacheEntry "fid" "fn" "folder" "rid" "rurl" "s1id" "s1url" "s2id" "s2url"
        "resid" "resurl" "NOW"
        (objSet (.obj [("logic_score", .num 90), ("one_line_summary", .str "sum")])
          "pass_gate" (.bool true))
        (some (.obj [("stage_score", .num 6), ("industry_score", .num 6), ("bm_score", .num 6)]))
        ⟨81, 81, 81⟩ ⟨81, 78, 75⟩ (deriveRecommendations ⟨81, 78, 75⟩)
        (deriveRecommendations ⟨81, 78, 75⟩).critical) := by
  have h8100 : roundHalfEven ((8100 : ℤ) : ℚ) = 8100 := roundHalfEven_intCast _
  have h81 : roundHalfEven ((81 : ℤ) : ℚ) = 81 := roundHalfEven_intCast _
  have h78 : roundHalfEven ((78 : ℤ) : ℚ) = 78 := roundHalfEven_intCast _
  have h75 : roundHalfEven ((75 : ℤ) : ℚ) = 75 := roundHalfEven_intCast _
  push_cast at h8100 h81 h78 h75
  have hfs : computeFinalScores
      (objSet (.obj [("logic_score", .num 90), ("one_line_summary", .str "sum")])
        "pass_gate" (.bool true))
      (some (.obj [("stage_score", .num 6), ("industry_score", .num 6), ("bm_score", .num 6)])) =
      .ok ⟨81, 81, 81⟩ := by
    simp only [computeFinalScores, logicScoreOf, pyFloatField, objGet, objSet, setField,
      lookupField, pyOr, truthy, pyFloat, axisNormalized, Bind.bind, Except.bind, pyRound2]
    norm_num [h8100]
  have hps : computePerspectiveScores
      (objSet (.obj [("logic_score", .num 90), ("one_line_summary", .str "sum")])
        "pass_gate" (.bool true))
      (some (.obj [("stage_score", .num 6), ("industry_score", .num 6), ("bm_score", .num 6)])) =
      .ok ⟨81, 78, 75⟩ := by
    simp only [computePerspectiveScores, logicScoreOf, pyFloatField, objGet, objSet, setField,
      lookupField, pyOr, truthy, pyFloat, axisNormalized, Bind.bind, Except.bind]
    norm_num [h81, h78, h75]
  have hmain := evaluateFile_cache_idempotence_and_force_replace
    ⟨.ok "doc", .ok (.obj [("logic_score", .num 90), ("one_line_summary", .str "sum")]),
      .ok (.obj [("stage_score", .num 6), ("industry_score", .num 6), ("bm_score", .num 6)]),
      .ok "rid", .ok "rurl", .ok "jf", .ok "s1id", .ok "s1url", .ok "s2id", .ok "s2url",
      .ok "resid", .ok "resurl", "NOW"⟩
    [(computeCacheKey id id "fid" "doc" "mt" "p1h" "p2h", .obj [("status", .str "old")])]
    id id "fid" "fn" "mt" "folder" "p1h" "p2h" "doc" rfl
  have hA := hmain.1 (.obj [("status", .str "old")]) (by rw [lookupField]; simp) rfl
  have hB := hmain.2 [("logic_score", .num 90), ("one_line_summary", .str "sum")] 90
    (.obj [("stage_score", .num 6), ("industry_score", .num 6), ("bm_score", .num 6)])
    ⟨81, 81, 81⟩ ⟨81, 78, 75⟩ "rid" "rurl" "jf" "s1id" "s1url" "s2id" "s2url" "resid" "resurl"
    rfl rfl (by norm_num) rfl rfl hfs hps rfl rfl rfl rfl rfl rfl rfl rfl rfl _ rfl
  refine ⟨hA, ?_, ?_⟩
  · rw [hB.1]
  · rw [hB.1]
    exact hB.2

/-- C4 counterexample: the claim says that when a document's evaluation fails
nothing is written into the cache for its fingerprint; but when Stage 1 fails
after the cache key was computed, the `except` clause of `evaluate_file`
executes `cache.set(cache_key, fail_entry)` and a fail entry is stored under
the fingerprint. -/
theorem evaluateFile_failure_writes_fail_entry :
    (evaluateFile ⟨.ok "doc", .error "UpstreamError: boom", .error "e", .error "e", .error "e",
        .error ⟨"HttpError", "e"⟩, .error "e", .error "e", .error "e", .error "e", .error "e",
        .error "e", "NOW"⟩ [] id id "fid" "fn" "mt" "folder" "p1h" "p2h" false).outcome =
      .failed (formatErrorInfo ⟨"RuntimeError", wrapStageError "step1" "UpstreamError: boom"⟩
        "fid" "fn") ∧
    lookupField
      (evaluateFile ⟨.ok "doc", .error "UpstreamError: boom", .error "e", .error "e", .error "e",
          .error ⟨"HttpError", "e"⟩, .error "e", .error "e", .error "e", .error "e", .error "e",
          .error "e", "NOW"⟩ [] id id "fid" "fn" "mt" "folder" "p1h" "p2h" false).cache
      (computeCacheKey id id "fid" "doc" "mt" "p1h" "p2h") =
      some (mkFailEntry "fid" "fn" "folder" "NOW"
        (formatErrorInfo ⟨"RuntimeError", wrapStageError "step1" "UpstreamError: boom"⟩
          "fid" "fn")) :=
  ⟨rfl, rfl⟩

/-- C4 (amended): a failure is surfaced as a failed document and no partial
evaluation results are cached; but a failure record (document identity,
timestamp, status, error info — with no `step1`/`step2` data) IS written into
the cache under the fingerprint whenever the failure occurs after the key was
computed (here: Stage 1 exhausting its retries); only a failure before the
key exists (a download failure) leaves the cache untouched. -/
theorem evaluateFile_failure_cache_policy
    (ext : Ext) (cache : List (String × JVal)) (h md5 : String → String)
    (fileId fileName modifiedTime folder p1h p2h : String) (force : Bool) :
    (∀ m, ext.content = .error m →
       evaluateFile ext cache h md5 fileId fileName modifiedTime folder p1h p2h force =
         ⟨.failed (formatErrorInfo ⟨"RuntimeError", wrapStageError "download" m⟩ fileId fileName),
          cache, false, 0⟩) ∧
    (∀ content m, ext.content = .ok content →
       lookupField cache (computeCacheKey h md5 fileId content modifiedTime p1h p2h) = none →
       ext.step1 = .error m →
       computeCacheKey h md5 fileId content modifiedTime p1h p2h ≠ "" →
       evaluateFile ext cache h md5 fileId fileName modifiedTime folder p1h p2h force =
         ⟨.failed (formatErrorInfo ⟨"RuntimeError", wrapStageError "step1" m⟩ fileId fileName),
          setField cache (computeCacheKey h md5 fileId content modifiedTime p1h p2h)
            (mkFailEntry fileId fileName folder ext.now
              (formatErrorInfo ⟨"RuntimeError", wrapStageError "step1" m⟩ fileId fileName)),
          false, 1⟩ ∧
       hasKey (mkFailEntry fileId fileName folder ext.now
           (formatErrorInfo ⟨"RuntimeError", wrapStageError "step1" m⟩ fileId fileName))
         "step1" = false ∧
       hasKey (mkFailEntry fileId fileName folder ext.now
           (formatErrorInfo ⟨"RuntimeError", wrapStageError "step1" m⟩ fileId fileName))
         "step2" = false) := by
  constructor
  · intro m hm
    simp only [evaluateFile, hm, retryOutcome_error, failResult]
    simp
  · intro content m hc hmiss hs1 hk
    refine ⟨?_, rfl, rfl⟩
    simp only [evaluateFile, hc, retryOutcome_ok, hmiss, runStage1, hs1, retryOutcome_error,
      failResult]
    rw [if_pos hk]

/-- Witness for C4 (amended): a download failure writes nothing; a Stage-1
failure writes exactly the fail entry under the computed key. -/
theorem evaluateFile_failure_cache_policy_witness :
    evaluateFile ⟨.error "timeout", .error "e", .error "e", .error "e", .error "e",
        .error ⟨"HttpError", "e"⟩, .error "e", .error "e", .error "e", .error "e", .error "e",
        .error "e", "T0"⟩ [] id id "fidw" "fnw" "mtw" "folderw" "p1w" "p2w" false =
      ⟨.failed (formatErrorInfo ⟨"RuntimeError", wrapStageError "download" "timeout"⟩
          "fidw" "fnw"), [], false, 0⟩ ∧
    evaluateFile ⟨.ok "docw", .error "boom", .error "e", .error "e", .error "e",
        .error ⟨"HttpError", "e"⟩, .error "e", .error "e", .error "e", .error "e", .error "e",
        .error "e", "T0"⟩ [] id id "fidw" "fnw" "mtw" "folderw" "p1w" "p2w" false =
      ⟨.failed (formatErrorInfo ⟨"RuntimeError", wrapStageError "step1" "boom"⟩ "fidw" "fnw"),
       setField [] (computeCacheKey id id "fidw" "docw" "mtw" "p1w" "p2w")
         (mkFailEntry "fidw" "fnw" "folderw" "T0"
           (formatErrorInfo ⟨"RuntimeError", wrapStageError "step1" "boom"⟩ "fidw" "fnw")),
       false, 1⟩ :=
  ⟨(evaluateFile_failure_cache_policy ⟨.error "timeout", .error "e", .error "e", .error "e",
      .error "e", .error ⟨"HttpError", "e"⟩, .error "e", .error "e", .error "e", .error "e",
      .error "e", .error "e", "T0"⟩ [] id id "fidw" "fnw" "mtw" "folderw" "p1w" "p2w" false).1
      "timeout" rfl,
   ((evaluateFile_failure_cache_policy ⟨.ok "docw", .error "boom", .error "e", .error "e",
      .error "e", .error ⟨"HttpError", "e"⟩, .error "e", .error "e", .error "e", .error "e",
      .error "e", .error "e", "T0"⟩ [] id id "fidw" "fnw" "mtw" "folderw" "p1w" "p2w" false).2
      "docw" "boom" rfl rfl rfl (by decide)).1⟩

theorem string_append_cancel_middle {p x y s : String} (h : p ++ x ++ s = p ++ y ++ s) :
    x = y := by
  have hd := congrArg String.data h
  simp only [String.data_append] at hd
  have h1 := List.append_cancel_right hd
  have h2 := List.append_cancel_left h1
  cases x
  cases y
  exact congrArg String.mk h2

theorem string_append_cancel_left {p x y : String} (h : p ++ x = p ++ y) : x = y := by
  have hd := congrArg String.data h
  simp only [String.data_append] at hd
  have h2 := List.append_cancel_left hd
  cases x
  cases y
  exact congrArg String.mk h2

theorem joined6_eq (a b c d e f : String) :
    String.intercalate "::" [a, b, c, d, e, f] =
      a ++ "::" ++ b ++ "::" ++ c ++ "::" ++ d ++ "::" ++ e ++ "::" ++ f := rfl

/-- C7: the fingerprint is deterministic (a pure function of its inputs) and,
under the collision-resistance idealisation that SHA-256 (`h`) and MD5
(`md5`) are injective, any change to the document content, to either
prompt's content (through `hash_prompt`), or to the model identifier yields
a different cache key; conversely, equal inputs yield equal keys. -/
theorem computeCacheKey_sensitivity (h md5 : String → String)
    (hinj : Function.Injective h) (md5inj : Function.Injective md5) :
    (∀ model fid c mt p1 p2,
      computeCacheKeyWith h md5 model fid c mt (hashPrompt h p1) (hashPrompt h p2) =
      computeCacheKeyWith h md5 model fid c mt (hashPrompt h p1) (hashPrompt h p2)) ∧
    (∀ model fid c c' mt s1 s2, c ≠ c' →
      computeCacheKeyWith h md5 model fid c mt s1 s2 ≠
      computeCacheKeyWith h md5 model fid c' mt s1 s2) ∧
    (∀ model fid c mt p1 p1' s2, p1 ≠ p1' →
      computeCacheKeyWith h md5 model fid c mt (hashPrompt h p1) s2 ≠
      computeCacheKeyWith h md5 model fid c mt (hashPrompt h p1') s2) ∧
    (∀ model fid c mt s1 p2 p2', p2 ≠ p2' →
      computeCacheKeyWith h md5 model fid c mt s1 (hashPrompt h p2) ≠
      computeCacheKeyWith h md5 model fid c mt s1 (hashPrompt h p2')) ∧
    (∀ model model' fid c mt s1 s2, model ≠ model' →
      computeCacheKeyWith h md5 model fid c mt s1 s2 ≠
      computeCacheKeyWith h md5 model' fid c mt s1 s2) := by
  refine ⟨fun _ _ _ _ _ _ => rfl, ?_, ?_, ?_, ?_⟩
  · intro model fid c c' mt s1 s2 hne heq
    apply hne
    have hj := hinj heq
    rw [joined6_eq, joined6_eq] at hj
    have : md5Text md5 c = md5Text md5 c' := by
      have h1 : (fid ++ "::") ++ md5Text md5 c ++
          ("::" ++ mt ++ "::" ++ s1 ++ "::" ++ s2 ++ "::" ++ model) =
          (fid ++ "::") ++ md5Text md5 c' ++
          ("::" ++ mt ++ "::" ++ s1 ++ "::" ++ s2 ++ "::" ++ model) := by
        simpa [String.append_assoc] using hj
      exact string_append_cancel_middle h1
    exact md5inj this
  · intro model fid c mt p1 p1' s2 hne heq
    apply hne
    have hj := hinj heq
    rw [joined6_eq, joined6_eq] at hj
    have : hashPrompt h p1 = hashPrompt h p1' := by
      have h1 : (fid ++ "::" ++ md5Text md5 c ++ "::" ++ mt ++ "::") ++ hashPrompt h p1 ++
          ("::" ++ s2 ++ "::" ++ model) =
          (fid ++ "::" ++ md5Text md5 c ++ "::" ++ mt ++ "::") ++ hashPrompt h p1' ++
          ("::" ++ s2 ++ "::" ++ model) := by
        simpa [String.append_assoc] using hj
      exact string_append_cancel_middle h1
    exact hinj this
  · intro model fid c mt s1 p2 p2' hne heq
    apply hne
    have hj := hinj heq
    rw [joined6_eq, joined6_eq] at hj
    have : hashPrompt h p2 = hashPrompt h p2' := by
      have h1 : (fid ++ "::" ++ md5Text md5 c ++ "::" ++ mt ++ "::" ++ s1 ++ "::") ++
          hashPrompt h p2 ++ ("::" ++ model) =
          (fid ++ "::" ++ md5Text md5 c ++ "::" ++ mt ++ "::" ++ s1 ++ "::") ++
          hashPrompt h p2' ++ ("::" ++ model) := by
        simpa [String.append_assoc] using hj
      exact string_append_cancel_middle h1
    exact hinj this
  · intro model model' fid c mt s1 s2 hne heq
    apply hne
    have hj := hinj heq
    rw [joined6_eq, joined6_eq] at hj
    have h1 : (fid ++ "::" ++ md5Text md5 c ++ "::" ++ mt ++ "::" ++ s1 ++ "::" ++ s2 ++ "::") ++
        model = (fid ++ "::" ++ md5Text md5 c ++ "::" ++ mt ++ "::" ++ s1 ++ "::" ++ s2 ++ "::") ++
        model' := by
      simpa [String.append_assoc] using hj
    exact string_append_cancel_left h1

/-- Witness for C7: with the identity as (injective) stand-in digest, changing
only the document content changes the key, and equal inputs give equal keys. -/
theorem computeCacheKey_sensitivity_witness :
    computeCacheKeyWith id id "m" "fid" "doc-a" "mt" "s1" "s2" ≠
      computeCacheKeyWith id id "m" "fid" "doc-b" "mt" "s1" "s2" ∧
    computeCacheKeyWith id id "m" "fid" "doc-a" "mt" (hashPrompt id "p1") (hashPrompt id "p2") =
      computeCacheKeyWith id id "m" "fid" "doc-a" "mt" (hashPrompt id "p1") (hashPrompt id "p2") :=
  ⟨(computeCacheKey_sensitivity id id (fun _ _ hx => hx) (fun _ _ hx => hx)).2.1
      "m" "fid" "doc-a" "doc-b" "mt" "s1" "s2" (by decide),
   (computeCacheKey_sensitivity id id (fun _ _ hx => hx) (fun _ _ hx => hx)).1
      "m" "fid" "doc-a" "mt" "p1" "p2"⟩

theorem objGet_of_hasKey {v : JVal} {k : String} (d d' : JVal)
    (h : hasKey v k = true) : objGet v k d = objGet v k d' := by
  cases v <;> simp [hasKey] at h ⊢
  case obj kvs =>
    cases hl : lookupField kvs k with
    | none => rw [hl] at h; cases h
    | some x => simp [objGet, hl]

/-- C6 counterexample: the claim says rendering the same record twice is
byte-identical and independent of when it is invoked, but `render_report`
embeds `datetime.now()` in the title line, so the same record rendered on
two different dates produces different bytes. -/
theorem renderReport_depends_on_clock :
    renderReport "25.01.01" "f.md" (.obj []) none ⟨0, 0, 0⟩ ⟨"", "", ""⟩ "" ≠
      renderReport "25.01.02" "f.md" (.obj []) none ⟨0, 0, 0⟩ ⟨"", "", ""⟩ "" := by
  decide

/-- C6 (amended): with the invocation date fixed, rendering is a pure
function of the record (rendering twice is byte-identical), and the tabular
row is byte-identical across invocation times whenever the record carries
its `timestamp` field (the clock only supplies the missing-timestamp
default). -/
theorem export_deterministic_given_clock :
    (∀ now fileName step1 step2 ps recs verdict,
        renderReport now fileName step1 step2 ps recs verdict =
          renderReport now fileName step1 step2 ps recs verdict) ∧
      (∀ now1 now2 entry folder, hasKey entry "timestamp" = true →
        buildSheetRow now1 entry folder = buildSheetRow now2 entry folder) := by
  refine ⟨fun _ _ _ _ _ _ _ => rfl, ?_⟩
  intro now1 now2 entry folder h
  have hts := objGet_of_hasKey (JVal.str now1) (JVal.str now2) h
  simp only [buildSheetRow, hts]

/-- Witness for C6 (amended): a record with its timestamp present produces
the same row under two different clock values. -/
theorem export_deterministic_given_clock_witness :
    renderReport "25.01.01" "f.md" (.obj []) none ⟨0, 0, 0⟩ ⟨"", "", ""⟩ "" =
        renderReport "25.01.01" "f.md" (.obj []) none ⟨0, 0, 0⟩ ⟨"", "", ""⟩ "" ∧
      buildSheetRow "25.01.01" (.obj [("timestamp", .str "2026-10-12 00:00:00")]) "folder" =
        buildSheetRow "25.01.02" (.obj [("timestamp", .str "2026-10-12 00:00:00")]) "folder" :=
  ⟨export_deterministic_given_clock.1 "25.01.01" "f.md" (.obj []) none ⟨0, 0, 0⟩ ⟨"", "", ""⟩ "",
   export_deterministic_given_clock.2 "25.01.01" "25.01.02"
      (.obj [("timestamp", .str "2026-10-12 00:00:00")]) "folder" (by rfl)⟩

/-- C8 counterexample: the claim says `json_load` fails whenever the payload
(after stripping code fences) is not parseable as a single JSON object, and
that non-object JSON such as an array is always a hard failure.  The payload
below is a JSON array — it parses as `.arr` after stripping — yet `json_load`
succeeds, because `_extract_json_object` also cuts out the substring from the
first opening to the last closing brace and recovers the inner object. -/
theorem jsonLoad_succeeds_on_array_payload :
    pyJsonLoads (pyStrip "[\x7b\"a\": \"b\"\x7d]") =
        some (.arr [.obj [("a", .str "b")]]) ∧
      jsonLoad "[\x7b\"a\": \"b\"\x7d]" = .ok (.obj [("a", .str "b")]) :=
  ⟨rfl, rfl⟩

/-- C8 (amended): `json_load` fails iff the candidate recovered by
`_extract_json_object` (fence stripping plus first-to-last-brace substring
extraction) does not parse as a JSON object, and every successful call
returns an object. -/
theorem jsonLoad_ok_iff_extracted_object (s : String) :
    ((jsonLoad s).isOk = true ↔ ∃ kvs, pyJsonLoads (extractJsonObject s) = some (.obj kvs)) ∧
      (∀ v, jsonLoad s = .ok v → ∃ kvs, v = .obj kvs) := by
  unfold jsonLoad
  cases h : pyJsonLoads (extractJsonObject s) with
  | none => simp [Except.isOk, Except.toBool]
  | some v =>
    cases v <;> simp [Except.isOk, Except.toBool]

/-- Witness for C8 (amended) at a concrete object payload. -/
theorem jsonLoad_ok_iff_extracted_object_witness :
    (jsonLoad "\x7b\"k\": \"v\"\x7d").isOk = true ∧
      (∃ kvs, JVal.obj [("k", JVal.str "v")] = JVal.obj kvs) :=
  ⟨(jsonLoad_ok_iff_extracted_object "\x7b\"k\": \"v\"\x7d").1.mpr
      ⟨[("k", JVal.str "v")], rfl⟩,
   (jsonLoad_ok_iff_extracted_object "\x7b\"k\": \"v\"\x7d").2
      (JVal.obj [("k", JVal.str "v")]) rfl⟩

/-- C9: the recommendation ladder of `recommendation_for`: score ≥ 80 maps to
the top label "추천", 70 ≤ score ≤ 79 to the middle label "조건부 권장", and
anything below 70 to the bottom label "보류". -/
theorem recommendationFor_ladder (s : ℤ) :
    (80 ≤ s → recommendationFor s = "추천") ∧
    (70 ≤ s → s ≤ 79 → recommendationFor s = "조건부 권장") ∧
    (s ≤ 69 → recommendationFor s = "보류") := by
  unfold recommendationFor
  refine ⟨?_, ?_, ?_⟩ <;> intros <;> split_ifs <;> first | rfl | omega

/-- Witness for C9 at the boundary values 80, 79, 69. -/
theorem recommendationFor_ladder_boundaries :
    recommendationFor 80 = "추천" ∧
    recommendationFor 79 = "조건부 권장" ∧
    recommendationFor 69 = "보류" :=
  ⟨(recommendationFor_ladder 80).1 (by decide),
   (recommendationFor_ladder 79).2.1 (by decide) (by decide),
   (recommendationFor_ladder 69).2.2 (by decide)⟩

/-- C10: whenever `compute_final_scores` returns, it assigns the identical
number to "conservative", "neutral" and "optimistic", and that common value
lies in [0, 92]. -/
theorem computeFinalScores_three_views_equal_and_clamped
    (step1 : JVal) (step2 : Option JVal) (r : FScores)
    (h : computeFinalScores step1 step2 = .ok r) :
    r.conservative = r.neutral ∧ r.neutral = r.optimistic ∧
      0 ≤ r.conservative ∧ r.conservative ≤ 92 := by
  unfold computeFinalScores at h
  simp only [Bind.bind, Except.bind] at h
  cases hl : logicScoreOf step1 with
  | error e => rw [hl] at h; cases h
  | ok logic =>
    rw [hl] at h
    cases hn : axisNormalized step2 with
    | error e => rw [hn] at h; cases h
    | ok norm =>
      rw [hn] at h
      simp only [Except.ok.injEq] at h
      subst h
      refine ⟨rfl, rfl, ?_, ?_⟩
      · exact pyRound2_nonneg (le_max_left _ _)
      · exact pyRound2_le_92 (max_le (by norm_num) (min_le_left _ _))

/-- Witness for C10 at a concrete input (`logic_score` 90, no stage 2). -/
theorem computeFinalScores_three_views_equal_and_clamped_witness :
    computeFinalScores (.obj [("logic_score", .num 90)]) none = .ok ⟨63, 63, 63⟩ ∧
      (FScores.mk 63 63 63).conservative = (FScores.mk 63 63 63).neutral ∧
      (0 : ℚ) ≤ (FScores.mk 63 63 63).conservative ∧
      (FScores.mk 63 63 63).conservative ≤ 92 := by
  have heval : computeFinalScores (.obj [("logic_score", .num 90)]) none = .ok ⟨63, 63, 63⟩ := by
    have h1 : roundHalfEven ((6300 : ℤ) : ℚ) = 6300 := roundHalfEven_intCast _
    push_cast at h1
    simp only [computeFinalScores, logicScoreOf, pyFloatField, objGet, lookupField,
      pyOr, truthy, pyFloat, axisNormalized, Bind.bind, Except.bind, pyRound2]
    norm_num [h1]
  have hmain := computeFinalScores_three_views_equal_and_clamped _ _ _ heval
  exact ⟨heval, hmain.1, hmain.2.2.1, hmain.2.2.2⟩

end IREval
